import Mathlib

/-!
Shallow embedding of the telemetry ingestion and state-management layer of
`src/streamlit_app.py` (an MQTT-fed Streamlit energy dashboard), together
with theorems settling the frozen claims about it.

Modelling conventions:
* JSON values (the result of `json.loads`) are modelled by the inductive
  `Json`.  JSON numbers are modelled as `Int`; no claim depends on
  non-integral numeric values, only on the default `0`.
* `st.session_state` (the fields touched by the ingestion/connection code:
  `mqtt_connected`, `latest_data`, `history`, `mqtt_client`,
  `data_received`) is modelled by `AppState`.
* `datetime.now()` is modelled by an explicit `now : Nat` parameter.
  The source calls `datetime.now()` twice inside the `object` block
  (once for `latest_data`, once for the history entry); both calls happen
  inside the same callback and are modelled as the same instant.
* Python exceptions are modelled by `Except`: each helper returns
  `.error s` when the corresponding Python statement raises with the
  session state equal to `s` at the moment of the raise; the `except`
  clause of `on_message` (line 147) maps both outcomes to a plain state.
* `json.loads(msg.payload.decode())` itself is library code; its outcome
  is the `Option Json` argument of `on_message` (`none` = the payload is
  not parseable / not decodable, which raises before any state change).
* Python dicts produced by `json.loads` have unique keys (duplicate keys
  keep the last binding), so association lists here represent dicts whose
  keys are distinct; lookups use the first match.
-/

/-- A JSON value as produced by `json.loads`. -/
inductive Json : Type where
  | null : Json
  | bool : Bool → Json
  | num : Int → Json
  | str : String → Json
  | arr : List Json → Json
  | obj : List (String × Json) → Json

/-- First binding of key `k` in an association list (Python dict lookup). -/
def lookupKey (kvs : List (String × Json)) (k : String) : Option Json :=
  (kvs.find? (fun kv => kv.1 == k)).map (fun kv => kv.2)

/-- Python `x == k` where `k` is a string: true only for an equal string. -/
def isStrEq (x : Json) (k : String) : Bool :=
  match x with
  | .str s => s == k
  | _ => false

/-- Python substring test `needle in hay` on strings. -/
def strContains (hay needle : String) : Bool :=
  (List.range (hay.length + 1)).any
    (fun i => (hay.drop i).take needle.length == needle)

/-- Python `k in payload`.  On a dict it is a key test, on a list an
element test, on a string a substring test; on other values it raises
`TypeError`. -/
def pyContains (j : Json) (k : String) : Except Unit Bool :=
  match j with
  | .obj kvs => .ok (lookupKey kvs k).isSome
  | .arr xs => .ok (xs.any (fun x => isStrEq x k))
  | .str s => .ok (strContains s k)
  | _ => .error ()

/-- Python `payload[k]` with a string key: dict lookup (raising `KeyError`
when absent); on any other value it raises `TypeError`. -/
def getItem (j : Json) (k : String) : Except Unit Json :=
  match j with
  | .obj kvs =>
    match lookupKey kvs k with
    | some v => .ok v
    | none => .error ()
  | _ => .error ()

/-- Python `len(x)`: defined for dicts, lists and strings, raises
`TypeError` otherwise. -/
def pyLen (j : Json) : Except Unit Nat :=
  match j with
  | .obj kvs => .ok kvs.length
  | .arr xs => .ok xs.length
  | .str s => .ok s.length
  | _ => .error ()

/-- The `st.session_state.latest_data` dict (source lines 58-72).  The
values assigned from the payload can be arbitrary JSON values, so the
fields are `Json`-typed; `timestamp` is the local receipt instant. -/
structure LatestData : Type where
  voltage : Json
  current : Json
  power : Json
  frequency : Json
  powerFactor : Json
  energy : Json
  dailyKwh : Json
  dailyCost : Json
  timestamp : Nat
  rssi : Json
  snr : Json
  devEUI : Json
  gateway : Json

/-- One entry of `st.session_state.history` (source lines 138-143): the
callback stores only these four fields, not the full sample. -/
structure HistEntry : Type where
  timestamp : Nat
  power : Json
  voltage : Json
  current : Json

/-- The MQTT client object; for the claims only the credential setting
performed by `init_mqtt` (lines 158-160) is relevant. -/
structure Client : Type where
  creds : Option (String × String)

/-- The session-state fields used by the ingestion/connection layer
(source lines 56-75). -/
structure AppState : Type where
  mqtt_connected : Bool
  latest_data : LatestData
  history : List HistEntry
  mqtt_client : Option Client
  data_received : Bool

/-- Append of a Python deque with maxlen `cap` (source line 73 plus
line 138): the new
element goes to the right, then elements are evicted from the left until
the length is at most `cap`. -/
def histAppend (cap : Nat) (h : List HistEntry) (e : HistEntry) : List HistEntry :=
  (h ++ [e]).drop ((h ++ [e]).length - cap)

/-- The initial `latest_data` dict (lines 58-72): numeric fields `0`,
device and gateway the sentinel string `"--"`. -/
def initLatestData (now : Nat) : LatestData :=
  { voltage := .num 0, current := .num 0, power := .num 0, frequency := .num 0,
    powerFactor := .num 0, energy := .num 0, dailyKwh := .num 0, dailyCost := .num 0,
    timestamp := now, rssi := .num 0, snr := .num 0,
    devEUI := .str "--", gateway := .str "--" }

/-- Session-state initialization (lines 56-75): disconnected, default
latest data, empty history, no client, no data received. -/
def initState (now : Nat) : AppState :=
  { mqtt_connected := false, latest_data := initLatestData now,
    history := [], mqtt_client := none, data_received := false }

/-- Lines 112-113: `if 'devEUI' in payload: latest_data['devEUI'] = payload['devEUI']`. -/
def handleDevEUI (st : AppState) (payload : Json) : Except AppState AppState :=
  match pyContains payload "devEUI" with
  | .error _ => .error st
  | .ok false => .ok st
  | .ok true =>
    match getItem payload "devEUI" with
    | .error _ => .error st
    | .ok v => .ok { st with latest_data := { st.latest_data with devEUI := v } }

/-- Lines 116-120: the `rxInfo` block.  When `rxInfo[0]` is a dict, its
three `.get` calls cannot raise, so the three assignments complete
together; when it is not a dict, the first `.get` raises `AttributeError`
before any of the three assignments, so the state is unchanged. -/
def handleRxInfo (st : AppState) (payload : Json) : Except AppState AppState :=
  match pyContains payload "rxInfo" with
  | .error _ => .error st
  | .ok false => .ok st
  | .ok true =>
    match getItem payload "rxInfo" with
    | .error _ => .error st
    | .ok rxArr =>
      match pyLen rxArr with
      | .error _ => .error st
      | .ok n =>
        if 0 < n then
          match rxArr with
          | .arr (first :: _) =>
            match first with
            | .obj rkvs =>
              .ok { st with latest_data := { st.latest_data with
                      rssi := (lookupKey rkvs "rssi").getD (Json.num 0),
                      snr := (lookupKey rkvs "loRaSNR").getD (Json.num 0),
                      gateway := (lookupKey rkvs "name").getD
                        ((lookupKey rkvs "gatewayID").getD (Json.str "--")) } }
            | _ => .error st
          | .arr [] => .error st
          | _ => .error st
        else .ok st

/-- Lines 123-135: `if 'object' in payload:` followed by the
`latest_data.update({...})` call.  The argument dict is fully evaluated
before `update` runs, and when `obj` is a dict none of the `.get` calls
can raise, so the update of the eight numeric fields plus `timestamp` is
all-or-nothing; when `obj` is not a dict the first `.get` raises before
the update. -/
def handleObjectLatest (now : Nat) (st : AppState) (payload : Json) :
    Except AppState AppState :=
  match pyContains payload "object" with
  | .error _ => .error st
  | .ok false => .ok st
  | .ok true =>
    match getItem payload "object" with
    | .error _ => .error st
    | .ok obj =>
      match obj with
      | .obj okvs =>
        .ok { st with latest_data := { st.latest_data with
                voltage := (lookupKey okvs "voltage").getD (Json.num 0),
                current := (lookupKey okvs "current").getD (Json.num 0),
                power := (lookupKey okvs "power").getD (Json.num 0),
                frequency := (lookupKey okvs "frequency").getD (Json.num 0),
                powerFactor := (lookupKey okvs "powerFactor").getD (Json.num 0),
                energy := (lookupKey okvs "energy").getD (Json.num 0),
                dailyKwh := (lookupKey okvs "dailyKwh").getD (Json.num 0),
                dailyCost := (lookupKey okvs "dailyCost").getD (Json.num 0),
                timestamp := now } }
      | _ => .error st

/-- Lines 137-143: `history.append({...})` inside the `object` block.
The guard of the block is re-evaluated here purely to decompose the
block; `pyContains` is pure, so the decomposed sequence equals the
original single block. -/
def handleObjectHistory (now : Nat) (st : AppState) (payload : Json) :
    Except AppState AppState :=
  match pyContains payload "object" with
  | .error _ => .error st
  | .ok false => .ok st
  | .ok true =>
    match getItem payload "object" with
    | .error _ => .error st
    | .ok obj =>
      match obj with
      | .obj okvs =>
        let e : HistEntry :=
          { timestamp := now,
            power := (lookupKey okvs "power").getD (Json.num 0),
            voltage := (lookupKey okvs "voltage").getD (Json.num 0),
            current := (lookupKey okvs "current").getD (Json.num 0) }
        .ok { st with history := histAppend 100 st.history e }
      | _ => .error st

/-- Line 145: `data_received = True` inside the `object` block (same
decomposition note as for the history step). -/
def handleObjectFlag (st : AppState) (payload : Json) : Except AppState AppState :=
  match pyContains payload "object" with
  | .error _ => .error st
  | .ok false => .ok st
  | .ok true => .ok { st with data_received := true }

/-- The try-block of `on_message` up to and including the
`latest_data.update` call (lines 108-135).  The resulting state is the
session state visible at line 136 - after the latest-sample update and
before the history append - a point at which the unsynchronized reader
thread can run. -/
def msgBodyStart (now : Nat) (st : AppState) (payload : Json) :
    Except AppState AppState :=
  match handleDevEUI st payload with
  | .error s => .error s
  | .ok s1 =>
    match handleRxInfo s1 payload with
    | .error s => .error s
    | .ok s2 => handleObjectLatest now s2 payload

/-- The whole try-block of `on_message` (lines 108-145). -/
def msgBody (now : Nat) (st : AppState) (payload : Json) :
    Except AppState AppState :=
  match msgBodyStart now st payload with
  | .error s => .error s
  | .ok s3 =>
    match handleObjectHistory now s3 payload with
    | .error s => .error s
    | .ok s4 => handleObjectFlag s4 payload

/-- Collapse a raised/normal outcome to the resulting session state. -/
def outState (e : Except AppState AppState) : AppState :=
  match e with
  | .ok s => s
  | .error s => s

/-- The callback `on_message` (lines 107-148).  `parsed` is the outcome of
`json.loads(msg.payload.decode())`: `none` when parsing raises (the
`except` clause then returns with the state untouched); any exception
raised later in the body is also caught by the same `except` clause,
leaving the state as it was at the raise. -/
def on_message (now : Nat) (st : AppState) (parsed : Option Json) : AppState :=
  match parsed with
  | none => st
  | some payload => outState (msgBody now st payload)

/-- The callback `on_connect` (lines 94-101): `rc = 0` means success (sets the
connected flag and subscribes), anything else sets it to false. -/
def on_connect (rc : Nat) (st : AppState) : AppState :=
  if rc = 0 then { st with mqtt_connected := true }
  else { st with mqtt_connected := false }

/-- The callback `on_disconnect` (lines 103-105). -/
def on_disconnect (st : AppState) : AppState :=
  { st with mqtt_connected := false }

/-- Client construction with the credential rule of lines 158-160:
`if MQTT_USERNAME and MQTT_PASSWORD: client.username_pw_set(...)` -
Python string truthiness, so credentials are set only when both strings
are non-empty. -/
def mkClient (username password : String) : Client :=
  if !username.isEmpty && !password.isEmpty then { creds := some (username, password) }
  else { creds := none }

/-- The connector `init_mqtt` (lines 151-170).  `connectOk` models whether the external
`client.connect(...)` call succeeds or raises; on the raise the `except`
clause shows an error banner and returns `False` without touching any
state; an existing client short-circuits the whole attempt. -/
def init_mqtt (username password : String) (connectOk : Bool) (st : AppState) :
    AppState × Bool :=
  match st.mqtt_client with
  | some _ => (st, true)
  | none =>
    let client := mkClient username password
    if connectOk then ({ st with mqtt_client := some client }, true)
    else (st, false)

/-- Read path, latest sample: the renderer reads
`st.session_state.latest_data` directly (lines 217, 219, 255-323). -/
def getLatest (st : AppState) : LatestData :=
  st.latest_data

/-- The spec-facing view of `getLatest` as an `Optional<Sample>`: the
code's read path always finds a populated `latest_data` dict, so under
the spec's optional-valued signature the result is always `some`. -/
def getLatestOpt (st : AppState) : Option LatestData :=
  some st.latest_data

/-- Read path, history: `list(st.session_state.history)` (line 331). -/
def getHistory (st : AppState) : List HistEntry :=
  st.history

/-- Read path, connection status (lines 181, 221). -/
def getStatus (st : AppState) : Bool :=
  st.mqtt_connected

/-- Read path, data-received flag (line 239). -/
def hasReceivedAny (st : AppState) : Bool :=
  st.data_received

/-- The stored value of numeric field `k` of the `object` member of a
payload: the member's entry when present, `0` when absent (the
`obj.get(k, 0)` defaults of lines 126-133 and 140-142). -/
def objGetD (payload : Json) (k : String) : Json :=
  match payload with
  | .obj kvs =>
    match lookupKey kvs "object" with
    | some (.obj okvs) => (lookupKey okvs k).getD (Json.num 0)
    | _ => .num 0
  | _ => .num 0

/-- The history entry the callback builds for a payload (lines 138-143). -/
def mkEntry (now : Nat) (payload : Json) : HistEntry :=
  { timestamp := now, power := objGetD payload "power",
    voltage := objGetD payload "voltage", current := objGetD payload "current" }

/-- Whether the `object` member of the payload contains key `k`. -/
def objHasKey (payload : Json) (k : String) : Bool :=
  match payload with
  | .obj kvs =>
    match lookupKey kvs "object" with
    | some (.obj okvs) => (lookupKey okvs k).isSome
    | _ => false
  | _ => false

/-- The payload is a dict whose `rxInfo` member, when present, is
handled by lines 116-120 without raising: absent, or an empty list, or a
list whose first element is a dict. -/
def rxWF (payload : Json) : Bool :=
  match payload with
  | .obj kvs =>
    match lookupKey kvs "rxInfo" with
    | none => true
    | some (.arr []) => true
    | some (.arr (first :: _)) =>
      match first with
      | .obj _ => true
      | _ => false
    | some _ => false
  | _ => false

/-- The payload is a dict whose `object` member is present and is itself
a dict. -/
def objWF (payload : Json) : Bool :=
  match payload with
  | .obj kvs =>
    match lookupKey kvs "object" with
    | some (.obj _) => true
    | _ => false
  | _ => false

/-- The last `cap` elements of a list. -/
def takeLast (cap : Nat) (l : List HistEntry) : List HistEntry :=
  l.drop (l.length - cap)

/-- Folding a whole arrival sequence into an initially empty buffer. -/
def appendAll (cap : Nat) (l : List HistEntry) : List HistEntry :=
  l.foldl (histAppend cap) []

/-- A payload that parses as JSON yet carries the `power` field under
`object`; used to exhibit the unsynchronized read window. -/
def racePayload : Json :=
  Json.obj [("object", Json.obj [("power", Json.num 7)])]

/-- C3: when decoding fails (the payload is not parseable as structured
data), the exception is raised before any state mutation and the
`except` clause discards the message, so the callback leaves every field
of the store exactly as it was. -/
theorem C3_malformed_no_change (now : Nat) (st : AppState) :
    on_message now st none = st := rfl

/-- C1 counterexample: the payload `{}` parses as structured data, so
per the decoder contract it decodes successfully, yet the callback
performs none of the three effects - the state is unchanged, nothing is
appended to the history, and `data_received` stays `false`.  The three
effects therefore do not occur for every successfully decoded message,
only for those whose payload carries an `object` field. -/
theorem C1_counterexample :
    on_message 1 (initState 0) (some (Json.obj [])) = initState 0 ∧
    hasReceivedAny (on_message 1 (initState 0) (some (Json.obj []))) = false ∧
    getHistory (on_message 1 (initState 0) (some (Json.obj []))) = [] :=
  ⟨rfl, rfl, rfl⟩

/-- C4 counterexample: `{"object": 5}` parses as structured data and
contains an `object` field, but `obj.get` raises on the non-dict value,
the message is discarded, and no sample is stored at all - so decoding
does not succeed for every parseable payload with an `object` field.
Likewise `{"rxInfo": 5, "object": {}}` parses and has an `object` field
but `len(payload['rxInfo'])` raises first, and again nothing is stored. -/
theorem C4_counterexample :
    on_message 1 (initState 0) (some (Json.obj [("object", Json.num 5)])) = initState 0 ∧
    hasReceivedAny (on_message 1 (initState 0)
      (some (Json.obj [("object", Json.num 5)]))) = false ∧
    on_message 1 (initState 0)
      (some (Json.obj [("rxInfo", Json.num 5), ("object", Json.obj [])])) = initState 0 :=
  ⟨rfl, rfl, rfl⟩

/-- C2: the store has no synchronization, so a reader can run between
the `latest_data.update` (lines 125-135) and the `history.append`
(line 138) of one callback.  At that program point - `msgBodyStart` -
the latest sample already shows `power = 7` with the new timestamp while
the history is still empty and `data_received` is still `false`; the
completed callback does append the matching entry, showing the window is
strictly inside one callback.  A reader interleaved there observes a
`latest` sample not reflected in `history`, contradicting the claim. -/
theorem C2_race_window :
    (getLatest (outState (msgBodyStart 1 (initState 0) racePayload))).power = Json.num 7 ∧
    (getLatest (outState (msgBodyStart 1 (initState 0) racePayload))).timestamp = 1 ∧
    getHistory (outState (msgBodyStart 1 (initState 0) racePayload)) = [] ∧
    hasReceivedAny (outState (msgBodyStart 1 (initState 0) racePayload)) = false ∧
    getHistory (on_message 1 (initState 0) (some racePayload)) = [mkEntry 1 racePayload] ∧
    (mkEntry 1 racePayload).power = Json.num 7 :=
  ⟨rfl, rfl, rfl, rfl, rfl, rfl⟩

/-- C6 counterexample: at process start the store's `latest` is not an
absent value - it is the populated sentinel sample (numerics `0`,
device and gateway `"--"`), and the read path hands exactly this sample
to the renderer (the device row at line 217 displays `"--"` before any
message).  `getLatest` therefore does not return `None` before the
first successful decode. -/
theorem C6_counterexample :
    getLatestOpt (initState 0) = some (initLatestData 0) ∧
    getLatestOpt (initState 0) ≠ none ∧
    hasReceivedAny (initState 0) = false ∧
    (initLatestData 0).devEUI = Json.str "--" ∧
    (initLatestData 0).voltage = Json.num 0 :=
  ⟨rfl, fun h => Option.noConfusion h, rfl, rfl, rfl⟩

/-- C6 (amended): at process start the store is created with status
`Disconnected`, `hasReceivedAny = false`, an empty history, no client,
and `latest` initialized to the sentinel default sample (all numeric
fields `0`, `devEUI` and `gateway` the string `"--"`, timestamp the
initialization instant) rather than `None`; "no data yet" is signalled
by `hasReceivedAny = false`, not by an absent latest sample. -/
theorem C6_amended (now : Nat) :
    getStatus (initState now) = false ∧
    hasReceivedAny (initState now) = false ∧
    getHistory (initState now) = [] ∧
    (initState now).mqtt_client = none ∧
    getLatestOpt (initState now) = some (initLatestData now) ∧
    (initLatestData now).voltage = Json.num 0 ∧
    (initLatestData now).current = Json.num 0 ∧
    (initLatestData now).power = Json.num 0 ∧
    (initLatestData now).frequency = Json.num 0 ∧
    (initLatestData now).powerFactor = Json.num 0 ∧
    (initLatestData now).energy = Json.num 0 ∧
    (initLatestData now).dailyKwh = Json.num 0 ∧
    (initLatestData now).dailyCost = Json.num 0 ∧
    (initLatestData now).rssi = Json.num 0 ∧
    (initLatestData now).snr = Json.num 0 ∧
    (initLatestData now).devEUI = Json.str "--" ∧
    (initLatestData now).gateway = Json.str "--" ∧
    (initLatestData now).timestamp = now :=
  ⟨rfl, rfl, rfl, rfl, rfl, rfl, rfl, rfl, rfl, rfl, rfl, rfl, rfl, rfl, rfl, rfl,
   rfl, rfl⟩

/-- A string is non-empty exactly when `isEmpty` is `false`. -/
lemma isEmpty_false_iff (s : String) : s.isEmpty = false ↔ s ≠ "" := by
  rw [Bool.eq_false_iff, ne_eq, ne_eq]
  exact not_congr (String.isEmpty_iff s)

/-- C10: a connect attempt installs username/password credentials on
the client exactly when both strings are non-empty (Python truthiness
of `MQTT_USERNAME and MQTT_PASSWORD`); with exactly one of the two
provided, no credentials are installed and the attempt is anonymous. -/
theorem C10_credentials (u p : String) :
    ((mkClient u p).creds ≠ none ↔ (u ≠ "" ∧ p ≠ "")) ∧
    (mkClient "user" "").creds = none ∧
    (mkClient "" "secret").creds = none ∧
    (mkClient "user" "secret").creds = some ("user", "secret") := by
  refine ⟨?_, rfl, rfl, rfl⟩
  unfold mkClient
  split
  · rename_i hcond
    simp only [Bool.and_eq_true, Bool.not_eq_true'] at hcond
    rw [isEmpty_false_iff, isEmpty_false_iff] at hcond
    simp [hcond.1, hcond.2]
  · rename_i hcond
    simp only [Bool.and_eq_true, Bool.not_eq_true'] at hcond
    rw [isEmpty_false_iff, isEmpty_false_iff] at hcond
    simp only [ne_eq]
    constructor
    · intro h
      exact absurd trivial h
    · intro h
      exact absurd h hcond

/-- Witness for C10 at concrete credentials. -/
theorem C10_credentials_witness : (mkClient "u" "q").creds ≠ none :=
  (C10_credentials "u" "q").1.mpr ⟨by decide, by decide⟩

/-- C7: a failed `connect()` raises inside `init_mqtt`'s try, which
returns `False` after showing an error banner: the whole session state -
latest sample, history, data-received flag, and the connection flag -
is exactly what it was, so starting from `Disconnected` no stale
`Connected` status can remain.  A broker-refused attempt arrives as
`on_connect` with `rc` nonzero, which sets the connected flag to false
and touches no telemetry field.  Neither path crashes: both are total. -/
theorem C7_connect_failure (st : AppState) (u p : String) (rc : Nat) (hrc : rc ≠ 0) :
    (init_mqtt u p false st).1 = st ∧
    (st.mqtt_connected = false → getStatus (init_mqtt u p false st).1 = false) ∧
    (on_connect rc st).latest_data = st.latest_data ∧
    (on_connect rc st).history = st.history ∧
    (on_connect rc st).data_received = st.data_received ∧
    getStatus (on_connect rc st) = false := by
  have h1 : (init_mqtt u p false st).1 = st := by
    unfold init_mqtt
    cases st.mqtt_client <;> simp
  refine ⟨h1, ?_, ?_, ?_, ?_, ?_⟩
  · intro h2
    rw [h1]
    exact h2
  all_goals simp [on_connect, getStatus, hrc]

/-- Witness for C7: a concrete failed attempt from the initial state and
a concrete refused CONNACK with `rc = 5`. -/
theorem C7_connect_failure_witness :
    (init_mqtt "u" "q" false (initState 0)).1 = initState 0 ∧
    getStatus (on_connect 5 (initState 0)) = false :=
  ⟨(C7_connect_failure (initState 0) "u" "q" 5 (by decide)).1,
   (C7_connect_failure (initState 0) "u" "q" 5 (by decide)).2.2.2.2.2⟩

lemma handleDevEUI_frame {st s : AppState} {p : Json}
    (h : handleDevEUI st p = .ok s ∨ handleDevEUI st p = .error s) :
    s.history = st.history ∧ s.data_received = st.data_received ∧
    s.mqtt_connected = st.mqtt_connected ∧ s.mqtt_client = st.mqtt_client := by
  unfold handleDevEUI at h
  rcases h with h | h <;> (repeat' split at h) <;> simp_all <;> subst h <;> simp

lemma handleRxInfo_frame {st s : AppState} {p : Json}
    (h : handleRxInfo st p = .ok s ∨ handleRxInfo st p = .error s) :
    s.history = st.history ∧ s.data_received = st.data_received ∧
    s.mqtt_connected = st.mqtt_connected ∧ s.mqtt_client = st.mqtt_client := by
  unfold handleRxInfo at h
  rcases h with h | h <;> (repeat' split at h) <;> simp_all <;> subst h <;> simp

lemma handleObjectLatest_frame {now : Nat} {st s : AppState} {p : Json}
    (h : handleObjectLatest now st p = .ok s ∨ handleObjectLatest now st p = .error s) :
    s.history = st.history ∧ s.data_received = st.data_received ∧
    s.mqtt_connected = st.mqtt_connected ∧ s.mqtt_client = st.mqtt_client := by
  unfold handleObjectLatest at h
  rcases h with h | h <;> (repeat' split at h) <;> simp_all <;> subst h <;> simp

lemma handleObjectFlag_frame {st s : AppState} {p : Json}
    (h : handleObjectFlag st p = .ok s ∨ handleObjectFlag st p = .error s) :
    s.history = st.history ∧ s.latest_data = st.latest_data ∧
    s.mqtt_connected = st.mqtt_connected ∧ s.mqtt_client = st.mqtt_client := by
  unfold handleObjectFlag at h
  rcases h with h | h <;> (repeat' split at h) <;> simp_all <;> subst h <;> simp

lemma getItem_ok {j : Json} {k : String} {v : Json} (h : getItem j k = .ok v) :
    ∃ kvs, j = .obj kvs ∧ lookupKey kvs k = some v := by
  unfold getItem at h
  (repeat' split at h) <;> simp_all

lemma handleObjectHistory_frame {now : Nat} {st s : AppState} {p : Json}
    (h : handleObjectHistory now st p = .ok s ∨ handleObjectHistory now st p = .error s) :
    (s.history = st.history ∨ s.history = histAppend 100 st.history (mkEntry now p)) ∧
    s.data_received = st.data_received ∧ s.latest_data = st.latest_data ∧
    s.mqtt_connected = st.mqtt_connected ∧ s.mqtt_client = st.mqtt_client := by
  unfold handleObjectHistory at h
  rcases h with h | h <;> (repeat' split at h) <;> simp_all <;> subst h <;> simp <;>
    (obtain ⟨kvs, rfl, hL⟩ := getItem_ok (by assumption)
     exact Or.inr (by simp [mkEntry, objGetD, hL]))

lemma msgBodyStart_frame {now : Nat} {st s : AppState} {p : Json}
    (h : msgBodyStart now st p = .ok s ∨ msgBodyStart now st p = .error s) :
    s.history = st.history ∧ s.data_received = st.data_received ∧
    s.mqtt_connected = st.mqtt_connected ∧ s.mqtt_client = st.mqtt_client := by
  unfold msgBodyStart at h
  cases h1 : handleDevEUI st p with
  | error s1 =>
    rw [h1] at h
    rcases h with h | h
    · exact absurd h (by simp)
    · injection h with h'
      subst h'
      exact handleDevEUI_frame (Or.inr h1)
  | ok s1 =>
    simp only [h1] at h
    have e1 := handleDevEUI_frame (Or.inl h1)
    cases h2 : handleRxInfo s1 p with
    | error s2 =>
      simp only [h2] at h
      rcases h with h | h
      · exact absurd h (by simp)
      · injection h with h'
        subst h'
        have e2 := handleRxInfo_frame (Or.inr h2)
        exact ⟨e2.1.trans e1.1, e2.2.1.trans e1.2.1,
               e2.2.2.1.trans e1.2.2.1, e2.2.2.2.trans e1.2.2.2⟩
    | ok s2 =>
      simp only [h2] at h
      have e2 := handleRxInfo_frame (Or.inl h2)
      have e3 := handleObjectLatest_frame h
      exact ⟨e3.1.trans (e2.1.trans e1.1), e3.2.1.trans (e2.2.1.trans e1.2.1),
             e3.2.2.1.trans (e2.2.2.1.trans e1.2.2.1),
             e3.2.2.2.trans (e2.2.2.2.trans e1.2.2.2)⟩

lemma msgBody_frame {now : Nat} {st s : AppState} {p : Json}
    (h : msgBody now st p = .ok s ∨ msgBody now st p = .error s) :
    (s.history = st.history ∨ s.history = histAppend 100 st.history (mkEntry now p)) ∧
    s.mqtt_connected = st.mqtt_connected ∧ s.mqtt_client = st.mqtt_client := by
  unfold msgBody at h
  cases h1 : msgBodyStart now st p with
  | error s1 =>
    rw [h1] at h
    rcases h with h | h
    · exact absurd h (by simp)
    · injection h with h'
      subst h'
      have e1 := msgBodyStart_frame (Or.inr h1)
      exact ⟨Or.inl e1.1, e1.2.2.1, e1.2.2.2⟩
  | ok s1 =>
    simp only [h1] at h
    have e1 := msgBodyStart_frame (Or.inl h1)
    cases h2 : handleObjectHistory now s1 p with
    | error s2 =>
      simp only [h2] at h
      rcases h with h | h
      · exact absurd h (by simp)
      · injection h with h'
        subst h'
        have e2 := handleObjectHistory_frame (Or.inr h2)
        refine ⟨?_, e2.2.2.2.1.trans e1.2.2.1, e2.2.2.2.2.trans e1.2.2.2⟩
        rcases e2.1 with hh | hh
        · exact Or.inl (hh.trans e1.1)
        · rw [e1.1] at hh
          exact Or.inr hh
    | ok s2 =>
      simp only [h2] at h
      have e2 := handleObjectHistory_frame (Or.inl h2)
      have e3 := handleObjectFlag_frame h
      refine ⟨?_, e3.2.2.1.trans (e2.2.2.2.1.trans e1.2.2.1),
              e3.2.2.2.trans (e2.2.2.2.2.trans e1.2.2.2)⟩
      rcases e2.1 with hh | hh
      · exact Or.inl ((e3.1.trans hh).trans e1.1)
      · rw [e1.1] at hh
        exact Or.inr (e3.1.trans hh)

lemma mem_histAppend {cap : Nat} {l : List HistEntry} {x e : HistEntry}
    (hm : e ∈ histAppend cap l x) : e ∈ l ∨ e = x := by
  unfold histAppend at hm
  have hmem := List.mem_of_mem_drop hm
  rcases List.mem_append.mp hmem with h1 | h2
  · exact Or.inl h1
  · exact Or.inr (by simpa using h2)

/-- C9: every entry of the history after a callback is either an entry
that was already there or the four-field projection of the processed
message - timestamp, power, voltage, current - built at lines 138-143;
no other sample field is ever stored in the history, so `getHistory`
returns projections, not full samples. -/
theorem C9_history_projection (now : Nat) (st : AppState) (payload : Json)
    (e : HistEntry) (h : e ∈ getHistory (on_message now st (some payload))) :
    e ∈ getHistory st ∨ e = mkEntry now payload := by
  simp only [on_message] at h
  cases hb : msgBody now st payload with
  | ok s =>
    simp only [hb, outState, getHistory] at h
    have hf := msgBody_frame (Or.inl hb)
    rcases hf.1 with hh | hh
    · rw [hh] at h
      exact Or.inl h
    · rw [hh] at h
      exact mem_histAppend h
  | error s =>
    simp only [hb, outState, getHistory] at h
    have hf := msgBody_frame (Or.inr hb)
    rcases hf.1 with hh | hh
    · rw [hh] at h
      exact Or.inl h
    · rw [hh] at h
      exact mem_histAppend h

/-- C8: for every payload - unparseable (`none`), non-JSON-object, or
structurally unexpected JSON - the callback returns normally: the
try/except of lines 108-148 maps both the success outcome and any raise
to a plain resulting state (`outState`), so no exception reaches the
transport thread; moreover the callback never touches the connection
flag or the client object, and a parse failure returns the state
untouched, so the read path only ever observes store states. -/
theorem C8_callback_no_propagation (now : Nat) (st : AppState) (payload : Json) :
    on_message now st (some payload) = outState (msgBody now st payload) ∧
    getStatus (on_message now st (some payload)) = getStatus st ∧
    (on_message now st (some payload)).mqtt_client = st.mqtt_client ∧
    on_message now st none = st := by
  refine ⟨rfl, ?_, ?_, rfl⟩ <;>
    (cases hb : msgBody now st payload with
     | ok s =>
       have hf := msgBody_frame (Or.inl hb)
       simp [on_message, outState, hb, getStatus, hf.2.1, hf.2.2]
     | error s =>
       have hf := msgBody_frame (Or.inr hb)
       simp [on_message, outState, hb, getStatus, hf.2.1, hf.2.2])

lemma handleDevEUI_ok (st : AppState) (kvs : List (String × Json)) :
    ∃ s, handleDevEUI st (.obj kvs) = .ok s ∧ s.history = st.history ∧
      s.data_received = st.data_received := by
  cases hL : lookupKey kvs "devEUI" with
  | none => exact ⟨st, by simp [handleDevEUI, pyContains, hL], rfl, rfl⟩
  | some v =>
    exact ⟨{ st with latest_data := { st.latest_data with devEUI := v } },
      by simp [handleDevEUI, pyContains, getItem, hL], rfl, rfl⟩

lemma handleRxInfo_ok (st : AppState) (kvs : List (String × Json))
    (hrx : rxWF (.obj kvs) = true) :
    ∃ s, handleRxInfo st (.obj kvs) = .ok s ∧ s.history = st.history ∧
      s.data_received = st.data_received := by
  simp only [rxWF] at hrx
  cases hL : lookupKey kvs "rxInfo" with
  | none => exact ⟨st, by simp [handleRxInfo, pyContains, hL], rfl, rfl⟩
  | some v =>
    rw [hL] at hrx
    cases v with
    | arr l =>
      cases l with
      | nil => exact ⟨st, by simp [handleRxInfo, pyContains, getItem, pyLen, hL], rfl, rfl⟩
      | cons first rest =>
        cases first with
        | obj rkvs =>
          refine ⟨{ st with latest_data := { st.latest_data with
            rssi := (lookupKey rkvs "rssi").getD (Json.num 0),
            snr := (lookupKey rkvs "loRaSNR").getD (Json.num 0),
            gateway := (lookupKey rkvs "name").getD
              ((lookupKey rkvs "gatewayID").getD (Json.str "--")) } }, ?_, rfl, rfl⟩
          simp [handleRxInfo, pyContains, getItem, pyLen, hL]
        | null => simp at hrx
        | bool b => simp at hrx
        | num n => simp at hrx
        | str s => simp at hrx
        | arr l2 => simp at hrx
    | null => simp at hrx
    | bool b => simp at hrx
    | num n => simp at hrx
    | str s => simp at hrx
    | obj kvs2 => simp at hrx

lemma handleObjectLatest_ok (now : Nat) (st : AppState)
    (kvs okvs : List (String × Json))
    (hobj : lookupKey kvs "object" = some (.obj okvs)) :
    handleObjectLatest now st (.obj kvs) =
      .ok { st with latest_data := { st.latest_data with
        voltage := (lookupKey okvs "voltage").getD (Json.num 0),
        current := (lookupKey okvs "current").getD (Json.num 0),
        power := (lookupKey okvs "power").getD (Json.num 0),
        frequency := (lookupKey okvs "frequency").getD (Json.num 0),
        powerFactor := (lookupKey okvs "powerFactor").getD (Json.num 0),
        energy := (lookupKey okvs "energy").getD (Json.num 0),
        dailyKwh := (lookupKey okvs "dailyKwh").getD (Json.num 0),
        dailyCost := (lookupKey okvs "dailyCost").getD (Json.num 0),
        timestamp := now } } := by
  simp [handleObjectLatest, pyContains, getItem, hobj]

lemma handleObjectHistory_ok (now : Nat) (st : AppState)
    (kvs okvs : List (String × Json))
    (hobj : lookupKey kvs "object" = some (.obj okvs)) :
    handleObjectHistory now st (.obj kvs) =
      .ok { st with history := histAppend 100 st.history ⟨now, (lookupKey okvs "power").getD (Json.num 0), (lookupKey okvs "voltage").getD (Json.num 0), (lookupKey okvs "current").getD (Json.num 0)⟩ } := by
  simp [handleObjectHistory, pyContains, getItem, hobj]

lemma handleObjectFlag_ok (st : AppState) (kvs okvs : List (String × Json))
    (hobj : lookupKey kvs "object" = some (.obj okvs)) :
    handleObjectFlag st (.obj kvs) = .ok { st with data_received := true } := by
  simp [handleObjectFlag, pyContains, hobj]

lemma handleObjectLatest_okE (now : Nat) (st : AppState)
    (kvs okvs : List (String × Json))
    (hobj : lookupKey kvs "object" = some (.obj okvs)) :
    ∃ s3, handleObjectLatest now st (.obj kvs) = .ok s3 ∧ s3.history = st.history ∧
      s3.data_received = st.data_received ∧
      s3.latest_data.voltage = (lookupKey okvs "voltage").getD (Json.num 0) ∧
      s3.latest_data.current = (lookupKey okvs "current").getD (Json.num 0) ∧
      s3.latest_data.power = (lookupKey okvs "power").getD (Json.num 0) ∧
      s3.latest_data.frequency = (lookupKey okvs "frequency").getD (Json.num 0) ∧
      s3.latest_data.powerFactor = (lookupKey okvs "powerFactor").getD (Json.num 0) ∧
      s3.latest_data.energy = (lookupKey okvs "energy").getD (Json.num 0) ∧
      s3.latest_data.dailyKwh = (lookupKey okvs "dailyKwh").getD (Json.num 0) ∧
      s3.latest_data.dailyCost = (lookupKey okvs "dailyCost").getD (Json.num 0) ∧
      s3.latest_data.timestamp = now :=
  ⟨_, handleObjectLatest_ok now st kvs okvs hobj,
   rfl, rfl, rfl, rfl, rfl, rfl, rfl, rfl, rfl, rfl, rfl⟩

lemma handleObjectHistory_okE (now : Nat) (st : AppState)
    (kvs okvs : List (String × Json))
    (hobj : lookupKey kvs "object" = some (.obj okvs)) :
    ∃ s4, handleObjectHistory now st (.obj kvs) = .ok s4 ∧
      s4.latest_data = st.latest_data ∧ s4.data_received = st.data_received ∧
      s4.history = histAppend 100 st.history ⟨now, (lookupKey okvs "power").getD (Json.num 0), (lookupKey okvs "voltage").getD (Json.num 0), (lookupKey okvs "current").getD (Json.num 0)⟩ :=
  ⟨_, handleObjectHistory_ok now st kvs okvs hobj, rfl, rfl, rfl⟩

lemma handleObjectFlag_okE (st : AppState) (kvs okvs : List (String × Json))
    (hobj : lookupKey kvs "object" = some (.obj okvs)) :
    ∃ s5, handleObjectFlag st (.obj kvs) = .ok s5 ∧
      s5.latest_data = st.latest_data ∧ s5.history = st.history ∧
      s5.data_received = true :=
  ⟨_, handleObjectFlag_ok st kvs okvs hobj, rfl, rfl, rfl⟩

lemma objGetD_eq (kvs okvs : List (String × Json)) (k : String)
    (hobj : lookupKey kvs "object" = some (.obj okvs)) :
    objGetD (.obj kvs) k = (lookupKey okvs k).getD (Json.num 0) := by
  simp [objGetD, hobj]

lemma on_message_object_spec (now : Nat) (st : AppState) (payload : Json)
    (h1 : rxWF payload = true) (h2 : objWF payload = true) :
    hasReceivedAny (on_message now st (some payload)) = true ∧
    getHistory (on_message now st (some payload)) =
      histAppend 100 st.history (mkEntry now payload) ∧
    (getLatest (on_message now st (some payload))).voltage = objGetD payload "voltage" ∧
    (getLatest (on_message now st (some payload))).current = objGetD payload "current" ∧
    (getLatest (on_message now st (some payload))).power = objGetD payload "power" ∧
    (getLatest (on_message now st (some payload))).frequency = objGetD payload "frequency" ∧
    (getLatest (on_message now st (some payload))).powerFactor = objGetD payload "powerFactor" ∧
    (getLatest (on_message now st (some payload))).energy = objGetD payload "energy" ∧
    (getLatest (on_message now st (some payload))).dailyKwh = objGetD payload "dailyKwh" ∧
    (getLatest (on_message now st (some payload))).dailyCost = objGetD payload "dailyCost" ∧
    (getLatest (on_message now st (some payload))).timestamp = now := by
  cases payload with
  | null => simp [objWF] at h2
  | bool b => simp [objWF] at h2
  | num n => simp [objWF] at h2
  | str s => simp [objWF] at h2
  | arr l => simp [objWF] at h2
  | obj kvs =>
    simp only [objWF] at h2
    cases hL : lookupKey kvs "object" with
    | none => rw [hL] at h2; simp at h2
    | some v =>
      rw [hL] at h2
      cases v with
      | obj okvs =>
        obtain ⟨s1, e1, e1h, e1d⟩ := handleDevEUI_ok st kvs
        obtain ⟨s2, e2, e2h, e2d⟩ := handleRxInfo_ok s1 kvs h1
        obtain ⟨s3, e3, f3h, f3d, f3v, f3c, f3p, f3f, f3pf, f3e, f3k, f3co, f3t⟩ :=
          handleObjectLatest_okE now s2 kvs okvs hL
        obtain ⟨s4, e4, f4l, f4d, f4h⟩ := handleObjectHistory_okE now s3 kvs okvs hL
        obtain ⟨s5, e5, f5l, f5h, f5d⟩ := handleObjectFlag_okE s4 kvs okvs hL
        have hrun : on_message now st (some (Json.obj kvs)) = s5 := by
          simp only [on_message, outState, msgBody, msgBodyStart, e1, e2, e3, e4, e5]
        refine ⟨?_, ?_, ?_, ?_, ?_, ?_, ?_, ?_, ?_, ?_, ?_⟩ <;>
          simp [hrun, hasReceivedAny, getHistory, getLatest, f5l, f5h, f5d, f4l, f4d,
            f4h, f3h, f3d, f3v, f3c, f3p, f3f, f3pf, f3e, f3k, f3co, f3t, e2h, e1h,
            mkEntry, objGetD, hL]
      | null => simp at h2
      | bool b => simp at h2
      | num n => simp at h2
      | str s => simp at h2
      | arr l => simp at h2

lemma objGetD_absent (payload : Json) (k : String)
    (habs : objHasKey payload k = false) : objGetD payload k = Json.num 0 := by
  cases payload with
  | obj kvs =>
    cases hL : lookupKey kvs "object" with
    | none => simp [objGetD, hL]
    | some v =>
      cases v with
      | obj okvs =>
        cases hk : lookupKey okvs k with
        | none => simp [objGetD, hL, hk]
        | some w =>
          exfalso
          simp [objHasKey, hL, hk] at habs
      | null => simp [objGetD, hL]
      | bool b => simp [objGetD, hL]
      | num n => simp [objGetD, hL]
      | str s => simp [objGetD, hL]
      | arr l => simp [objGetD, hL]
  | null => rfl
  | bool b => rfl
  | num n => rfl
  | str s => rfl
  | arr l => rfl

/-- C1 (amended): for every inbound message whose payload decodes
successfully AND carries an `object` field whose value is a map (with
`rxInfo`, when present, well-formed: a list that is empty or whose
first element is a map), the callback performs the three effects
together in that invocation: it writes all decoded sample fields into
`latest` (with the new timestamp), appends the corresponding entry to
the history buffer, and sets `hasReceivedAny = true`.  The original
claim fails for successfully decoded payloads without such an `object`
field (see the counterexample). -/
theorem C1_amended (now : Nat) (st : AppState) (payload : Json)
    (h1 : rxWF payload = true) (h2 : objWF payload = true) :
    hasReceivedAny (on_message now st (some payload)) = true ∧
    getHistory (on_message now st (some payload)) =
      histAppend 100 (getHistory st) (mkEntry now payload) ∧
    (getLatest (on_message now st (some payload))).voltage = objGetD payload "voltage" ∧
    (getLatest (on_message now st (some payload))).current = objGetD payload "current" ∧
    (getLatest (on_message now st (some payload))).power = objGetD payload "power" ∧
    (getLatest (on_message now st (some payload))).frequency = objGetD payload "frequency" ∧
    (getLatest (on_message now st (some payload))).powerFactor = objGetD payload "powerFactor" ∧
    (getLatest (on_message now st (some payload))).energy = objGetD payload "energy" ∧
    (getLatest (on_message now st (some payload))).dailyKwh = objGetD payload "dailyKwh" ∧
    (getLatest (on_message now st (some payload))).dailyCost = objGetD payload "dailyCost" ∧
    (getLatest (on_message now st (some payload))).timestamp = now :=
  on_message_object_spec now st payload h1 h2

/-- Witness for C1 (amended) at a concrete payload. -/
theorem C1_amended_witness :
    rxWF (Json.obj [("object", Json.obj [("voltage", Json.num 231)])]) = true ∧
    objWF (Json.obj [("object", Json.obj [("voltage", Json.num 231)])]) = true ∧
    hasReceivedAny (on_message 1 (initState 0)
      (some (Json.obj [("object", Json.obj [("voltage", Json.num 231)])]))) = true ∧
    getHistory (on_message 1 (initState 0)
      (some (Json.obj [("object", Json.obj [("voltage", Json.num 231)])]))) =
      histAppend 100 (getHistory (initState 0))
        (mkEntry 1 (Json.obj [("object", Json.obj [("voltage", Json.num 231)])])) ∧
    (getLatest (on_message 1 (initState 0)
      (some (Json.obj [("object", Json.obj [("voltage", Json.num 231)])])))).voltage =
      Json.num 231 :=
 by
  have h := C1_amended 1 (initState 0)
    (Json.obj [("object", Json.obj [("voltage", Json.num 231)])]) rfl rfl
  exact ⟨rfl, rfl, h.1, h.2.1, (h.2.2.1).trans rfl⟩

/-- C4 (amended): for every payload that parses as a map whose
`object` field is itself a map (and whose `rxInfo`, when present, is
well-formed), decoding succeeds - a sample is stored and
`hasReceivedAny` becomes true - and every numeric field absent from
`object` (voltage, current, power, frequency, powerFactor, energy,
dailyKwh, dailyCost) equals `0` in the stored sample.  The original
claim fails when `object` is present but not a map, or when `rxInfo`
is malformed (see the counterexample). -/
theorem C4_amended (now : Nat) (st : AppState) (payload : Json)
    (h1 : rxWF payload = true) (h2 : objWF payload = true) :
    hasReceivedAny (on_message now st (some payload)) = true ∧
    (objHasKey payload "voltage" = false →
      (getLatest (on_message now st (some payload))).voltage = Json.num 0) ∧
    (objHasKey payload "current" = false →
      (getLatest (on_message now st (some payload))).current = Json.num 0) ∧
    (objHasKey payload "power" = false →
      (getLatest (on_message now st (some payload))).power = Json.num 0) ∧
    (objHasKey payload "frequency" = false →
      (getLatest (on_message now st (some payload))).frequency = Json.num 0) ∧
    (objHasKey payload "powerFactor" = false →
      (getLatest (on_message now st (some payload))).powerFactor = Json.num 0) ∧
    (objHasKey payload "energy" = false →
      (getLatest (on_message now st (some payload))).energy = Json.num 0) ∧
    (objHasKey payload "dailyKwh" = false →
      (getLatest (on_message now st (some payload))).dailyKwh = Json.num 0) ∧
    (objHasKey payload "dailyCost" = false →
      (getLatest (on_message now st (some payload))).dailyCost = Json.num 0) := by
  obtain ⟨a, _, v, c, p, f, pf, en, dk, dc, _⟩ := on_message_object_spec now st payload h1 h2
  exact ⟨a,
    fun hab => v.trans (objGetD_absent payload "voltage" hab),
    fun hab => c.trans (objGetD_absent payload "current" hab),
    fun hab => p.trans (objGetD_absent payload "power" hab),
    fun hab => f.trans (objGetD_absent payload "frequency" hab),
    fun hab => pf.trans (objGetD_absent payload "powerFactor" hab),
    fun hab => en.trans (objGetD_absent payload "energy" hab),
    fun hab => dk.trans (objGetD_absent payload "dailyKwh" hab),
    fun hab => dc.trans (objGetD_absent payload "dailyCost" hab)⟩

/-- Witness for C4 (amended): `voltage` is absent and stored as `0`. -/
theorem C4_amended_witness :
    rxWF (Json.obj [("object", Json.obj [("power", Json.num 5)])]) = true ∧
    objWF (Json.obj [("object", Json.obj [("power", Json.num 5)])]) = true ∧
    objHasKey (Json.obj [("object", Json.obj [("power", Json.num 5)])]) "voltage" = false ∧
    hasReceivedAny (on_message 2 (initState 0)
      (some (Json.obj [("object", Json.obj [("power", Json.num 5)])]))) = true ∧
    (getLatest (on_message 2 (initState 0)
      (some (Json.obj [("object", Json.obj [("power", Json.num 5)])])))).voltage =
      Json.num 0 :=
 by
  have h := C4_amended 2 (initState 0)
    (Json.obj [("object", Json.obj [("power", Json.num 5)])]) rfl rfl
  exact ⟨rfl, rfl, rfl, h.1, h.2.1 rfl⟩

/-- Witness for C9 at a concrete payload whose entry is the projection. -/
theorem C9_history_projection_witness :
    mkEntry 3 (Json.obj [("object", Json.obj [("current", Json.num 2)])]) ∈
      getHistory (initState 0) ∨
    mkEntry 3 (Json.obj [("object", Json.obj [("current", Json.num 2)])]) =
      mkEntry 3 (Json.obj [("object", Json.obj [("current", Json.num 2)])]) :=
  C9_history_projection 3 (initState 0)
    (Json.obj [("object", Json.obj [("current", Json.num 2)])])
    (mkEntry 3 (Json.obj [("object", Json.obj [("current", Json.num 2)])]))
    (List.Mem.head _)

lemma histAppend_eq_takeLast (cap : Nat) (l : List HistEntry) (e : HistEntry) :
    histAppend cap l e = takeLast cap (l ++ [e]) := rfl

lemma takeLast_append_left (cap : Nat) (xs ys : List HistEntry) :
    takeLast cap (takeLast cap xs ++ ys) = takeLast cap (xs ++ ys) := by
  simp only [takeLast, List.length_append, List.length_drop,
    List.drop_append_eq_append_drop, List.drop_drop]
  congr 1
  · congr 1
    omega
  · congr 1
    omega

lemma foldl_histAppend (cap : Nat) (l xs : List HistEntry) :
    List.foldl (histAppend cap) (takeLast cap xs) l = takeLast cap (xs ++ l) := by
  induction l generalizing xs with
  | nil => simp
  | cons e t ih =>
    rw [List.foldl_cons, histAppend_eq_takeLast, takeLast_append_left]
    rw [ih (xs ++ [e])]
    simp

lemma appendAll_eq_takeLast (cap : Nat) (l : List HistEntry) :
    appendAll cap l = takeLast cap l := by
  have h := foldl_histAppend cap l []
  simpa [appendAll, takeLast] using h

/-- C5: for every sequence of `cap + k` appends (k at least 1) into an
initially empty deque buffer with maxlen `cap`, the buffer afterwards
holds exactly `cap` entries, namely the last `cap` appended samples in
arrival order (the first `k` are evicted); with `cap = 100` and 105
appends the oldest retained sample is the 6th one appended (see the
witness). -/
theorem C5_eviction (cap k : Nat) (l : List HistEntry) (hk : 1 ≤ k)
    (hl : l.length = cap + k) :
    appendAll cap l = l.drop k ∧ (appendAll cap l).length = cap := by
  have h := appendAll_eq_takeLast cap l
  constructor
  · rw [h]
    unfold takeLast
    congr 1
    omega
  · rw [h]
    unfold takeLast
    rw [List.length_drop]
    omega

/-- Witness for C5: 105 concrete appends into a capacity-100 buffer
keep the last 100, and the oldest retained entry is the 6th appended
(timestamp 5 with zero-based numbering). -/
theorem C5_eviction_witness :
    1 ≤ 5 ∧
    ((List.range 105).map (fun i => (⟨i, Json.num 0, Json.num 0, Json.num 0⟩ : HistEntry))).length = 100 + 5 ∧
    appendAll 100 ((List.range 105).map (fun i => (⟨i, Json.num 0, Json.num 0, Json.num 0⟩ : HistEntry))) =
      ((List.range 105).map (fun i => (⟨i, Json.num 0, Json.num 0, Json.num 0⟩ : HistEntry))).drop 5 ∧
    (appendAll 100 ((List.range 105).map (fun i => (⟨i, Json.num 0, Json.num 0, Json.num 0⟩ : HistEntry)))).length = 100 ∧
    (((List.range 105).map (fun i => (⟨i, Json.num 0, Json.num 0, Json.num 0⟩ : HistEntry))).drop 5).head? =
      some ⟨5, Json.num 0, Json.num 0, Json.num 0⟩ := by
  have hlen : ((List.range 105).map (fun i => (⟨i, Json.num 0, Json.num 0, Json.num 0⟩ : HistEntry))).length = 100 + 5 := by
    simp
  exact ⟨by decide, hlen,
    (C5_eviction 100 5 _ (by decide) hlen).1,
    (C5_eviction 100 5 _ (by decide) hlen).2,
    rfl⟩
